import Mathlib

/-
Verification of the slocator MCP server (session manager, handle manager,
backend-calling tools and report generators) against its specification.
The Python source is shallowly embedded: JSON documents become an inductive
`JValue`, wall-clock times become integers (seconds), Python `int()`
truncation and float arithmetic are modelled over exact rationals, and the
side effects of each operation (files written, backend HTTP calls made) are
returned explicitly.
-/

namespace Slocator

/-- A JSON document, as produced by `json.loads` / consumed by `json.dumps`
in `src/utils/json_handler.py`.  Numbers are modelled as exact rationals. -/
inductive JValue where
  | null : JValue
  | bool (b : Bool) : JValue
  | num (q : ℚ) : JValue
  | str (s : String) : JValue
  | arr (items : List JValue) : JValue
  | obj (fields : List (String × JValue)) : JValue
  deriving Repr

/-- Python truthiness of a JSON document (`if data:`): `None`, `False`, `0`,
`""`, `[]` and `{}` are falsy, everything else truthy. -/
def JValue.truthy : JValue → Bool
  | .null => false
  | .bool b => b
  | .num q => decide (q ≠ 0)
  | .str s => decide (s ≠ "")
  | .arr [] => false
  | .arr (_ :: _) => true
  | .obj [] => false
  | .obj (_ :: _) => true

/-- `to_serializable` from `src/utils/json_handler.py`, restricted to inputs
that are already JSON documents (the only inputs the handle-manager claims
exercise): mappings and sequences are lowered recursively, every other
JSON atom is returned unchanged.  The Pydantic-model and datetime branches
of the source cannot fire on a `JValue`. -/
def to_serializable : JValue → JValue
  | .null => .null
  | .bool b => .bool b
  | .num q => .num q
  | .str s => .str s
  | .arr items => .arr (items.attach.map (fun x => to_serializable x.1))
  | .obj fields => .obj (fields.attach.map (fun x => (x.1.1, to_serializable x.1.2)))
decreasing_by
  · have := List.sizeOf_lt_of_mem x.2
    simp only [JValue.arr.sizeOf_spec]
    omega
  · have h1 := List.sizeOf_lt_of_mem x.2
    have h2 : sizeOf x.1.2 < sizeOf x.1 := by
      obtain ⟨a, b⟩ := x.1
      simp only [Prod.mk.sizeOf_spec]
      omega
    simp only [JValue.obj.sizeOf_spec]
    omega

/-! ## Session manager (`src/core/session_manager.py`, `src/models.py`) -/

/-- `SessionInfo` from `src/models.py`.  Wall-clock instants are integers
(seconds); optional auth fields default to `none` exactly as in the model. -/
structure SessionInfo where
  session_id : String
  created_at : Int
  expires_at : Int
  data_handles : List String := []
  user_id : Option String := none
  id_token : Option String := none
  refresh_token : Option String := none
  token_expires_at : Option Int := none
  deriving Repr, DecidableEq

/-- Python truthiness of an `Optional[str]` field: `None` and `""` are falsy. -/
def pyTruthyStr : Option String → Bool
  | none => false
  | some s => decide (s ≠ "")

/-- The observable state of one session directory's `session_metadata.json`:
the file can be missing, parse to a falsy document (`if not metadata:`), or
parse to a full `SessionInfo` record.  (A file whose JSON is malformed makes
`use_json` raise and is outside the claims modelled here.) -/
inductive MetadataFile where
  | missing : MetadataFile
  | emptyDoc : MetadataFile
  | doc (info : SessionInfo) : MetadataFile
  deriving Repr, DecidableEq

/-- The session manager's state: the in-memory `current_session` slot plus
the on-disk session directories (directory name ↦ metadata file). -/
structure SMState where
  current_session : Option SessionInfo
  disk : List (String × MetadataFile)
  deriving Repr, DecidableEq

/-- `session_ttl_hours` default from `src/config.py`. -/
def session_ttl_hours : Int := 8

/-- Reading `session_metadata.json` of one session directory
(`use_json(metadata_path, "r")`): an absent directory or file reads as
missing. -/
def readMetadata (disk : List (String × MetadataFile)) (sid : String) :
    MetadataFile :=
  match disk.lookup sid with
  | some m => m
  | none => .missing

/-- Writing `session_metadata.json` of one session directory
(`use_json(metadata_path, "w", ...)`). -/
def writeMetadata (disk : List (String × MetadataFile)) (sid : String)
    (m : MetadataFile) : List (String × MetadataFile) :=
  match disk with
  | [] => [(sid, m)]
  | (k, v) :: rest =>
      if k = sid then (k, m) :: rest else (k, v) :: writeMetadata rest sid m

/-- The disk scan inside `SessionManager.get_current_session`: every session
directory whose metadata exists, is truthy and parses contributes a
`SessionInfo`, kept only when `datetime.now() < session_info.expires_at`. -/
def validDiskSessions (disk : List (String × MetadataFile)) (now : Int) :
    List SessionInfo :=
  disk.filterMap fun entry =>
    match entry.2 with
    | .doc info => if now < info.expires_at then some info else none
    | _ => none

/-- Keep the candidate created strictly later, the current best otherwise
(so the earliest-listed maximum survives, as under Python's stable sort). -/
def laterCreated (best cand : SessionInfo) : SessionInfo :=
  if cand.created_at > best.created_at then cand else best

/-- `valid_sessions.sort(key=lambda x: x[1], reverse=True)` followed by
taking the first element: the stable descending sort by `created_at` puts
first the earliest-listed session with maximal `created_at`. -/
def mostRecentlyCreated : List SessionInfo → Option SessionInfo
  | [] => none
  | s :: rest => some (rest.foldl laterCreated s)

/-- `SessionManager.get_current_session`: return the in-memory session if
set; otherwise scan the disk for valid sessions, restore the most recently
created one to memory, and return it. -/
def get_current_session (st : SMState) (now : Int) :
    Option SessionInfo × SMState :=
  match st.current_session with
  | some s => (some s, st)
  | none =>
      match mostRecentlyCreated (validDiskSessions st.disk now) with
      | some info => (some info, { st with current_session := some info })
      | none => (none, st)

/-- `SessionManager.create_session`: fresh id (supplied here as `newId`),
`expires_at = now + session_ttl_hours`, metadata persisted, session adopted
as current. -/
def create_session (st : SMState) (now : Int) (newId : String) :
    SessionInfo × SMState :=
  let info : SessionInfo :=
    { session_id := newId, created_at := now
      expires_at := now + session_ttl_hours * 3600 }
  (info, { current_session := some info
           disk := writeMetadata st.disk newId (.doc info) })

/-- Result of `SessionManager.update_session_auth`: the new manager state
and whether the metadata file was (re)written. -/
structure UpdateAuthResult where
  state : SMState
  wroteFile : Bool
  deriving Repr, DecidableEq

/-- `SessionManager.update_session_auth(session_id, user_id, id_token,
refresh_token, expires_in)` at time `now`: read the metadata file; if it is
missing or falsy, log and return without writing; otherwise rewrite the four
auth fields with `token_expires_at = now + (expires_in - 60)` and mirror the
update into the in-memory session when its id matches. -/
def update_session_auth (st : SMState) (now : Int) (session_id user_id
    id_token refresh_token : String) (expires_in : Int) : UpdateAuthResult :=
  match readMetadata st.disk session_id with
  | .missing => ⟨st, false⟩
  | .emptyDoc => ⟨st, false⟩
  | .doc m =>
      let m2 : SessionInfo :=
        { m with user_id := some user_id, id_token := some id_token
                 refresh_token := some refresh_token
                 token_expires_at := some (now + (expires_in - 60)) }
      let disk2 := writeMetadata st.disk session_id (.doc m2)
      let cur2 : Option SessionInfo :=
        match st.current_session with
        | some cs =>
            if cs.session_id = session_id then
              some { cs with user_id := some user_id, id_token := some id_token
                             refresh_token := some refresh_token
                             token_expires_at := some (now + (expires_in - 60)) }
            else some cs
        | none => none
      ⟨⟨cur2, disk2⟩, true⟩

/-- Outcome of the backend `POST /fastapi/token/refresh` call made inside
`get_valid_id_token`: either a 200 response carrying the new token data, or
a failure (non-200 status or transport exception, both reduced to
`(None, None)` by the source). -/
inductive RefreshOutcome where
  | success (localId idToken refreshToken : String) (expiresIn : Int)
  | failure
  deriving Repr, DecidableEq

/-- Result of `SessionManager.get_valid_id_token`: the `(user_id, id_token)`
pair, the manager state afterwards, and how many backend HTTP calls (token
refreshes) were performed. -/
structure TokenResult where
  user_id : Option String
  id_token : Option String
  state : SMState
  refreshCalls : Nat
  deriving Repr, DecidableEq

/-- The staleness test of `get_valid_id_token`: `not session.id_token or not
session.token_expires_at or datetime.now() >= session.token_expires_at`. -/
def tokenNeedsRefresh (s : SessionInfo) (now : Int) : Bool :=
  !pyTruthyStr s.id_token ||
    (match s.token_expires_at with
     | none => true
     | some e => decide (now ≥ e))

/-- `SessionManager.get_valid_id_token` at time `now`, with the backend's
answer to a (potential) refresh call given by `oracle`. -/
def get_valid_id_token (st : SMState) (now : Int) (oracle : RefreshOutcome) :
    TokenResult :=
  let r := get_current_session st now
  match r.1 with
  | none => ⟨none, none, r.2, 0⟩
  | some s =>
      if !pyTruthyStr s.refresh_token || !pyTruthyStr s.user_id then
        ⟨none, none, r.2, 0⟩
      else if tokenNeedsRefresh s now then
        match oracle with
        | .failure => ⟨none, none, r.2, 1⟩
        | .success lid tok rtok ein =>
            let upd := update_session_auth r.2 now s.session_id lid tok rtok ein
            ⟨some lid, some tok, upd.state, 1⟩
      else
        ⟨s.user_id, s.id_token, r.2, 0⟩

/-! ## Handle manager (`src/core/handle_manager.py`) -/

/-- The stored-result files: `(session_id, handle)` ↦ JSON document written
under `base_path/session_id/handle`. -/
abbrev HandleFS := List ((String × String) × JValue)

/-- `os.path.exists` + `use_json(file_path, "r")` for a handle file. -/
def fsLookup (fs : HandleFS) (sid handle : String) : Option JValue :=
  fs.lookup (sid, handle)

/-- `use_json(file_path, "w", ...)` for a handle file (overwrites). -/
def fsWrite (fs : HandleFS) (sid handle : String) (v : JValue) : HandleFS :=
  match fs with
  | [] => [((sid, handle), v)]
  | (k, w) :: rest =>
      if k = (sid, handle) then (k, v) :: rest
      else (k, w) :: fsWrite rest sid handle v

/-- Result of `HandleManager.store_data`: the returned handle string, the
handle files afterwards, and whether the session's last-access marker
(`session_info.json`) was touched. -/
structure StoreResult where
  handle : String
  fs : HandleFS
  touched : Bool
  deriving Repr

/-- `HandleManager.store_data(data_type, location, data)`: resolve the
current session (creating one — id `newId` — if none), synthesize the handle
name from type, location, the second-resolution `timestamp` string and the
session id, write `convert_to_serializable(data)` to it, and touch the
session's last-access marker.  (`convert_to_serializable` is
`to_serializable` followed by a `json.dumps` check that cannot fail on a
`JValue`.) -/
def store_data (st : SMState) (fs : HandleFS) (now : Int)
    (newId timestamp : String) (data_type location : String) (data : JValue) :
    StoreResult × SMState :=
  let r := get_current_session st now
  let sessAndSt : SessionInfo × SMState :=
    match r.1 with
    | some s => (s, r.2)
    | none => create_session r.2 now newId
  let session := sessAndSt.1
  let handle :=
    data_type ++ "_" ++ location ++ "_" ++ timestamp ++ "_"
      ++ session.session_id ++ ".json"
  let fs2 := fsWrite fs session.session_id handle (to_serializable data)
  (⟨handle, fs2, true⟩, sessAndSt.2)

/-- Result of `HandleManager.read_data`: the returned document (if any) and
whether the session's last-access marker was touched. -/
structure ReadResult where
  data : Option JValue
  touched : Bool
  deriving Repr

/-- `HandleManager.read_data(handle)`: nothing without a current session;
nothing if the file does not exist; otherwise parse the document and return
it only when it is truthy (`if data:`), touching last-access in exactly that
case. -/
def read_data (st : SMState) (fs : HandleFS) (now : Int) (handle : String) :
    ReadResult × SMState :=
  let r := get_current_session st now
  match r.1 with
  | none => (⟨none, false⟩, r.2)
  | some s =>
      match fsLookup fs s.session_id handle with
      | some d => if d.truthy then (⟨some d, true⟩, r.2) else (⟨none, false⟩, r.2)
      | none => (⟨none, false⟩, r.2)

/-! ## Backend-calling tools: the login gate

Each backend-calling tool (`src/tools/geospatial.py`,
`src/tools/optimize_sales_territories.py`,
`src/tools/analysis_tools/hub_analyzer.py`,
`src/tools/analysis_tools/pharmacy_analyzer.py`,
`src/tools/report_tools/generate_report.py`) first calls
`get_valid_id_token` and returns its "not logged in" message when the pair
is falsy, before building any request.  The post-gate body of each tool is
modelled only by its observable skeleton — the one backend HTTP call it then
makes and an output string drawn from that call — since the claims bear on
the gate.  `backendCalls` counts every HTTP request to the backend,
including token refreshes made inside `get_valid_id_token`. -/

/-- Observable outcome of one tool invocation: the string returned to the
client and the total number of backend HTTP calls performed. -/
structure ToolRun where
  output : String
  backendCalls : Nat
  deriving Repr, DecidableEq

/-- Not-logged-in message of `fetch_geospatial_data` and
`generate_territory_report` (whose source literals carry a mojibake-encoded
cross-mark prefix, reproduced byte-for-byte). -/
def notLoggedInMsgMojibake : String :=
  "‚ùå Error: You are not logged in. Please use the `user_login` tool first."

/-- Not-logged-in message of `optimize_sales_territories` (clean cross-mark
emoji prefix). -/
def notLoggedInMsgEmoji : String :=
  "❌ Error: You are not logged in. Please use the `user_login` tool first."

/-- Not-logged-in message of `hub_expansion_analyzer` and
`generate_pharmacy_report`. -/
def notLoggedInMsgPlain : String :=
  "Error: You are not logged in. Please use the `user_login` tool first."

/-- `fetch_geospatial_data` (gate and call skeleton): `postGateOutput` is
the message the remainder of the tool body produces from its dataset-fetch
response. -/
def fetch_geospatial_data (st : SMState) (now : Int) (oracle : RefreshOutcome)
    (postGateOutput : String) : ToolRun :=
  let tok := get_valid_id_token st now oracle
  if !pyTruthyStr tok.id_token || !pyTruthyStr tok.user_id then
    ⟨notLoggedInMsgMojibake, tok.refreshCalls⟩
  else
    ⟨postGateOutput, tok.refreshCalls + 1⟩

/-- `optimize_sales_territories` (gate and call skeleton). -/
def optimize_sales_territories (st : SMState) (now : Int)
    (oracle : RefreshOutcome) (postGateOutput : String) : ToolRun :=
  let tok := get_valid_id_token st now oracle
  if !pyTruthyStr tok.id_token || !pyTruthyStr tok.user_id then
    ⟨notLoggedInMsgEmoji, tok.refreshCalls⟩
  else
    ⟨postGateOutput, tok.refreshCalls + 1⟩

/-- `hub_expansion_analyzer` (gate and call skeleton). -/
def hub_expansion_analyzer_run (st : SMState) (now : Int)
    (oracle : RefreshOutcome) (postGateOutput : String) : ToolRun :=
  let tok := get_valid_id_token st now oracle
  if !pyTruthyStr tok.id_token || !pyTruthyStr tok.user_id then
    ⟨notLoggedInMsgPlain, tok.refreshCalls⟩
  else
    ⟨postGateOutput, tok.refreshCalls + 1⟩

/-- `generate_pharmacy_report` (gate and call skeleton). -/
def generate_pharmacy_report_run (st : SMState) (now : Int)
    (oracle : RefreshOutcome) (postGateOutput : String) : ToolRun :=
  let tok := get_valid_id_token st now oracle
  if !pyTruthyStr tok.id_token || !pyTruthyStr tok.user_id then
    ⟨notLoggedInMsgPlain, tok.refreshCalls⟩
  else
    ⟨postGateOutput, tok.refreshCalls + 1⟩

/-- `generate_territory_report` (gate skeleton): this tool makes no backend
HTTP call after the gate — it renders a stored handle — so the post-gate
call count is the gate's refresh count alone. -/
def generate_territory_report_run (st : SMState) (now : Int)
    (oracle : RefreshOutcome) (postGateOutput : String) : ToolRun :=
  let tok := get_valid_id_token st now oracle
  if !pyTruthyStr tok.id_token || !pyTruthyStr tok.user_id then
    ⟨notLoggedInMsgMojibake, tok.refreshCalls⟩
  else
    ⟨postGateOutput, tok.refreshCalls⟩

/-- "No prior `user_login` and no pre-existing valid token": either no
session resolves, or the resolved session has never logged in (falsy
`refresh_token` or `user_id`) — the states in which `get_valid_id_token`
returns `(None, None)` without attempting a refresh. -/
def noPriorLogin (st : SMState) (now : Int) : Prop :=
  match (get_current_session st now).1 with
  | none => True
  | some s => ¬ pyTruthyStr s.refresh_token ∨ ¬ pyTruthyStr s.user_id

/-! ## Hub expansion analyzer (`src/tools/analysis_tools/hub_analyzer.py`) -/

/-- Outcome of the HTTP POST to `/fastapi/hub_expansion_analysis` as seen by
`call_hub_expansion_internal`: a completed response with its status and
parsed JSON body (used only when the status is 200) and raw text, or a
transport exception. -/
inductive HubApiOutcome where
  | completed (status : Nat) (body : JValue) (text : String)
  | exn (msg : String)
  deriving Repr

/-- `call_hub_expansion_internal`: a 200 response yields its parsed body;
any other status yields `{"error": "API returned <status>", "details":
<text>}`; an exception yields `{"error": "Request failed", "details":
<msg>}`. -/
def call_hub_expansion_internal : HubApiOutcome → JValue
  | .completed status body text =>
      if status = 200 then body
      else .obj [("error", .str ("API returned " ++ toString status)),
                 ("details", .str text)]
  | .exn msg =>
      .obj [("error", .str "Request failed"), ("details", .str msg)]

/-- Python's `"k" in d` on a parsed JSON document (dictionary key
membership). -/
def jHasKey (v : JValue) (k : String) : Bool :=
  match v with
  | .obj fields => fields.any (fun kv => kv.1 == k)
  | _ => false

/-- The JSON result object `hub_expansion_analyzer` serializes and returns:
`report_file`, a `response` string, and the `metadata` object of which the
claims inspect the `error` flag (absent on success, modelled as `false`). -/
structure HubAnalyzerResult where
  report_file : String
  response : String
  metadata_error : Bool
  deriving Repr, DecidableEq

/-- The body of `hub_expansion_analyzer` after the login gate, applied to
the value `call_hub_expansion_internal` returned: when the response carries
an `"error"` key the tool returns the error envelope (`report_file = ""`,
`metadata.error = true`); otherwise it stores the data and returns the
success envelope, whose `report_file` is the saved path when a report was
requested and saved (`savedReportFile`, `""` otherwise) and whose metadata
has no error flag.  `successSummary` stands for the formatted analysis
text. -/
def hub_expansion_analyzer_body (response_data : JValue)
    (errorSummary successSummary savedReportFile : String) :
    HubAnalyzerResult :=
  if jHasKey response_data "error" then
    ⟨"", errorSummary, true⟩
  else
    ⟨savedReportFile, successSummary, false⟩

/-! ## Pharmacy report tool (`src/tools/analysis_tools/pharmacy_analyzer.py`) -/

/-- The `evaluation_metrics` object of the request body built by
`generate_pharmacy_report`. -/
structure EvaluationMetricsOut where
  traffic : ℚ
  demographics : ℚ
  competition : ℚ
  complementary : ℚ
  cross_shopping : ℚ
  deriving Repr, DecidableEq

/-- The fixed-shape request body `generate_pharmacy_report` POSTs to
`/fastapi/smart_pharmacy_report` (the fields the claims inspect; list-valued
constants are carried as string lists). -/
structure PharmacyRequestBody where
  user_id : String
  city_name : String
  country_name : String
  potential_business_type : String
  ecosystem_string_name : String
  target_income_level : String
  target_age : ℚ
  analysis_radius : ℚ
  complementary_categories : List String
  optimal_num_complementary_businesses_per_category : ℚ
  cross_shopping_categories : List String
  optimal_num_cross_shopping_businesses_per_category : ℚ
  competition_categories : List String
  max_competition_threshold_per_category : ℚ
  evaluation_metrics : EvaluationMetricsOut
  deriving Repr, DecidableEq

/-- The request body constructed in `generate_pharmacy_report` from the five
0–100 weights: each weight divided by 100, except `complementary` which is
`(healthcare_weight + complementary_weight) / 200`, plus the constant
`cross_shopping = 0.1`. -/
def pharmacy_request_body (user_id city_name country_name : String)
    (traffic_weight demographics_weight competition_weight healthcare_weight
      complementary_weight : ℚ) : PharmacyRequestBody :=
  { user_id := user_id
    city_name := city_name
    country_name := country_name
    potential_business_type := "pharmacy"
    ecosystem_string_name := "healthcare"
    target_income_level := "medium"
    target_age := 30
    analysis_radius := 1000
    complementary_categories := ["hospital", "dentist"]
    optimal_num_complementary_businesses_per_category := 2
    cross_shopping_categories := ["grocery_store", "supermarket"]
    optimal_num_cross_shopping_businesses_per_category := 3
    competition_categories := ["pharmacy"]
    max_competition_threshold_per_category := 1
    evaluation_metrics :=
      { traffic := traffic_weight / 100
        demographics := demographics_weight / 100
        competition := competition_weight / 100
        complementary := (healthcare_weight + complementary_weight) / 200
        cross_shopping := 1 / 10 } }

/-! ## Territory report generation (`src/tools/report_tools/generate_report.py`)

Python float arithmetic is modelled over exact rationals and `int()` as
truncation toward zero; the markdown table string is modelled by the list of
rows it renders, each row carrying the numeric cell values in source
order. -/

/-- `safe_divide(numerator, denominator, default=0.0)` over exact values;
used for `generate_territory_table`, whose claims only exercise divisions
that are exact in binary64 as well (see `safe_divide_double` for the
rounding-sensitive synthetic path). -/
def safe_divide (n d : ℚ) : ℚ := if d ≠ 0 then n / d else 0

/-- Python `int()` on a real number: truncation toward zero. -/
def pyInt (q : ℚ) : Int := if q ≥ 0 then ⌊q⌋ else ⌈q⌉

/-! ### IEEE-754 binary64 model

CPython evaluates the synthetic-table arithmetic in binary64, and the
claimed values are sensitive to its rounding, so doubles are modelled as
their exact rational values together with correct rounding: every
arithmetic result is rounded to 53 significant bits, to nearest, ties to
even (the magnitudes involved make overflow and subnormals unreachable).
Small integers convert to binary64 exactly and need no rounding. -/

/-- Round to the nearest integer, ties to even. -/
def roundHalfEven (q : ℚ) : Int :=
  if q - ⌊q⌋ < 1/2 then ⌊q⌋
  else if q - ⌊q⌋ > 1/2 then ⌊q⌋ + 1
  else if ⌊q⌋ % 2 = 0 then ⌊q⌋ else ⌊q⌋ + 1

/-- Exponent of the least-significant mantissa bit of the binary64 number
nearest to `q`. -/
def dExp (q : ℚ) : Int := Int.log 2 |q| - 52

/-- The binary64 value nearest to `q` (round to nearest, ties to even), as
an exact rational: the mantissa `q / 2 ^ dExp q` lies in `[2^52, 2^53)` and
is rounded to an integer. -/
def roundDouble (q : ℚ) : ℚ :=
  if q = 0 then 0 else (roundHalfEven (q / 2 ^ dExp q) : ℚ) * 2 ^ dExp q

/-- Binary64 addition of exactly-represented operands. -/
def fadd (x y : ℚ) : ℚ := roundDouble (x + y)

/-- Binary64 multiplication of exactly-represented operands. -/
def fmul (x y : ℚ) : ℚ := roundDouble (x * y)

/-- Binary64 (true) division of exactly-represented operands, as produced
by Python's `/` on ints or floats. -/
def fdiv (x y : ℚ) : ℚ := roundDouble (x / y)

/-- `safe_divide(numerator, denominator, default=0.0)` under binary64
semantics: Python's `/` on the (int or float) operands is a correctly
rounded binary64 division. -/
def safe_divide_double (n d : ℚ) : ℚ := if d ≠ 0 then fdiv n d else 0

/-- One entry of the `territory_analytics` list, with the keys
`generate_territory_table` and `extract_territory_metrics` read via
`safe_get`/`get` (defaulting absent keys to 0 at construction). -/
structure TerritoryRecord where
  territory_id : Int
  total_population : ℚ
  effective_population : ℚ
  facility_count : ℚ
  potential_customers : ℚ
  deriving Repr, DecidableEq

/-- One rendered row of the territory comparison table. -/
structure TerritoryRow where
  territory_id : Int
  population : ℚ
  effective_pop : ℚ
  facilities : ℚ
  customers : ℚ
  market_share : ℚ
  efficiency : ℚ
  deriving Repr, DecidableEq

/-- `generate_territory_table(territory_analytics, total_potential)`: empty
input renders no table; otherwise one row per territory with
`market_share = safe_divide(customers, total_potential) * 100` and
`efficiency = safe_divide(customers, facilities)`. -/
def generate_territory_table (territory_analytics : List TerritoryRecord)
    (total_potential : ℚ) : List TerritoryRow :=
  match territory_analytics with
  | [] => []
  | _ =>
      territory_analytics.map fun t =>
        { territory_id := t.territory_id
          population := t.total_population
          effective_pop := t.effective_population
          facilities := t.facility_count
          customers := t.potential_customers
          market_share := safe_divide t.potential_customers total_potential * 100
          efficiency := safe_divide t.potential_customers t.facility_count }

/-- `generate_synthetic_territory_table(total_customers, clusters_created)`
under binary64 arithmetic: rows `i = 0 .. clusters_created - 1` with
`avg_customers = total_customers / clusters_created` (float division),
`variation = 0.85 + (0.3 * (i % 3) / 2)` (each literal the binary64 value
of the decimal, each operation rounded),
`customers = int(avg_customers * variation)` (truncation),
`market_share = safe_divide(customers, total_customers) * 100`,
`population = int(customers * 0.8)`, `effective_pop = customers * 0.002`,
`facilities = max(1, int(customers / 100000))`, returning the rows and the
accumulated `synthetic_data` customer list. -/
def generate_synthetic_territory_table (total_customers : ℚ)
    (clusters_created : Nat) : List TerritoryRow × List Int :=
  if clusters_created = 0 then ([], [])
  else
    let avg_customers := fdiv total_customers (clusters_created : ℚ)
    let rows := (List.range clusters_created).map fun i =>
      let variation := fadd (roundDouble (85 / 100))
        (fdiv (fmul (roundDouble (3 / 10)) ((i % 3 : Nat) : ℚ)) 2)
      let customers := pyInt (fmul avg_customers variation)
      { territory_id := (i : Int)
        population := (pyInt (fmul (customers : ℚ) (roundDouble (8 / 10))) : ℚ)
        effective_pop := fmul (customers : ℚ) (roundDouble (2 / 1000))
        facilities := (max 1 (pyInt (fdiv (customers : ℚ) 100000)) : ℚ)
        customers := (customers : ℚ)
        market_share := fmul (safe_divide_double (customers : ℚ) total_customers) 100
        efficiency := safe_divide_double (customers : ℚ)
          (max 1 (pyInt (fdiv (customers : ℚ) 100000)) : ℚ) }
    (rows, rows.map fun row => pyInt row.customers)

/-- The `results_table` section produced by `generate_common_sections`: when
`extract_territory_metrics` yielded a non-empty `customer_counts` (i.e.
`territory_analytics` is non-empty), the source calls
`generate_territory_table(territory_analytics=[], total_potential=...)` —
with the empty list — otherwise it renders the synthetic table from
`metadata["total_customers"]` and `clusters_created`. -/
def generate_common_sections_results_table
    (territory_analytics : List TerritoryRecord) (meta_total_customers : ℚ)
    (clusters_created : Nat) : List TerritoryRow :=
  match territory_analytics with
  | [] => (generate_synthetic_territory_table meta_total_customers
            clusters_created).1
  | _ =>
      generate_territory_table []
        ((territory_analytics.map TerritoryRecord.potential_customers).sum)

/-! ## Concrete instances used by the claim theorems and witnesses -/

/-- An already-expired session sitting in the in-memory slot. -/
def c1ExpiredSession : SessionInfo :=
  { session_id := "aaaa0001", created_at := 0, expires_at := 5 }

/-- Manager state holding the expired session in memory. -/
def c1State : SMState := { current_session := some c1ExpiredSession, disk := [] }

/-- A still-valid session stored on disk only. -/
def c1DiskSession : SessionInfo :=
  { session_id := "bbbb0002", created_at := 3, expires_at := 100 }

/-- Manager state with an empty memory slot and one valid session on disk. -/
def c1DiskState : SMState :=
  { current_session := none, disk := [("bbbb0002", .doc c1DiskSession)] }

/-- A logged-in session for the token-refresh scenario (id token present,
expiry recorded far in the future so the scenario controls it explicitly). -/
def c2Session : SessionInfo :=
  { session_id := "sid00001", created_at := 0, expires_at := 1000000
    user_id := some "u", id_token := some "old", refresh_token := some "r"
    token_expires_at := some 500 }

/-- Manager state for the refresh scenario: `c2Session` both in memory and
persisted. -/
def c2State : SMState :=
  { current_session := some c2Session, disk := [("sid00001", .doc c2Session)] }

/-- The state right after `update_session_auth(..., expires_in=120)` at
`T = 0`, so the recorded token expiry is `T + 60 = 60`. -/
def c2After : SMState :=
  (update_session_auth c2State 0 "sid00001" "u" "newtok" "r2" 120).state

/-- A fresh manager state: nothing in memory, nothing on disk. -/
def emptyState : SMState := { current_session := none, disk := [] }

/-- A live session used by the handle-manager scenarios. -/
def c4Session : SessionInfo :=
  { session_id := "cccc0004", created_at := 0, expires_at := 1000 }

/-- Manager state holding `c4Session` in memory. -/
def c4State : SMState := { current_session := some c4Session, disk := [] }

/-- The store-then-read run of the falsy payload `{}` under `c4State`. -/
def c4FalsyRun : StoreResult × SMState :=
  store_data c4State [] 1 "ffff0009" "20250101_000000" "x" "y" (JValue.obj [])

/-- A handle file whose stored JSON document is the falsy `{}`. -/
def c10FS : HandleFS := [(("cccc0004", "h.json"), JValue.obj [])]

/-- One concrete territory record (id 0, population 1000, effective
population 800, 2 facilities, 100 potential customers). -/
def c5Territory : TerritoryRecord :=
  { territory_id := 0, total_population := 1000, effective_population := 800
    facility_count := 2, potential_customers := 100 }

/-! ## Helper lemmas -/

/-- On JSON documents, `to_serializable` is the identity. -/
theorem to_serializable_eq (v : JValue) : to_serializable v = v := by
  induction v using to_serializable.induct with
  | case1 => rw [to_serializable]
  | case2 b => rw [to_serializable]
  | case3 q => rw [to_serializable]
  | case4 s => rw [to_serializable]
  | case5 items ih =>
    rw [to_serializable]
    congr 1
    calc items.attach.map (fun x => to_serializable x.1)
        = items.attach.map (fun x => x.1) := List.map_congr_left (fun x _ => ih x)
      _ = items := List.attach_map_subtype_val items
  | case6 fields ih =>
    rw [to_serializable]
    congr 1
    calc fields.attach.map (fun x => (x.1.1, to_serializable x.1.2))
        = fields.attach.map (fun x => x.1) := by
          refine List.map_congr_left (fun x _ => ?_)
          rw [ih x]
      _ = fields := List.attach_map_subtype_val fields

/-- Reading a metadata file back right after writing it yields the written
content. -/
theorem readMetadata_writeMetadata_self (disk : List (String × MetadataFile))
    (sid : String) (m : MetadataFile) :
    readMetadata (writeMetadata disk sid m) sid = m := by
  induction disk with
  | nil => simp [writeMetadata, readMetadata, List.lookup]
  | cons kv rest ih =>
    obtain ⟨k, v⟩ := kv
    by_cases hk : k = sid
    · subst hk; simp [writeMetadata, readMetadata, List.lookup]
    · have hbeq : (sid == k) = false := beq_eq_false_iff_ne.mpr (Ne.symm hk)
      simpa [writeMetadata, readMetadata, List.lookup, hk, hbeq] using ih

/-- Reading a handle file back right after writing it yields the written
document. -/
theorem fsLookup_fsWrite_self (fs : HandleFS) (sid handle : String)
    (v : JValue) : fsLookup (fsWrite fs sid handle v) sid handle = some v := by
  induction fs with
  | nil => simp [fsWrite, fsLookup, List.lookup]
  | cons kv rest ih =>
    obtain ⟨k, w⟩ := kv
    by_cases hk : k = (sid, handle)
    · subst hk; simp [fsWrite, fsLookup, List.lookup]
    · have hbeq : ((sid, handle) == k) = false := beq_eq_false_iff_ne.mpr (Ne.symm hk)
      simpa [fsWrite, fsLookup, List.lookup, hk, hbeq] using ih

/-- The fold inside `mostRecentlyCreated` returns its seed or a list
element. -/
theorem foldl_laterCreated_mem (l : List SessionInfo) (b : SessionInfo) :
    l.foldl laterCreated b = b ∨ l.foldl laterCreated b ∈ l := by
  induction l generalizing b with
  | nil => left; rfl
  | cons x xs ih =>
    simp only [List.foldl_cons]
    rcases ih (laterCreated b x) with h | h
    · rw [h]
      unfold laterCreated
      by_cases hx : x.created_at > b.created_at
      · right; simp [hx]
      · left; simp [hx]
    · right; exact List.mem_cons_of_mem _ h

/-- `mostRecentlyCreated` only returns elements of its input list. -/
theorem mostRecentlyCreated_mem (l : List SessionInfo) (s : SessionInfo)
    (h : mostRecentlyCreated l = some s) : s ∈ l := by
  cases l with
  | nil => simp [mostRecentlyCreated] at h
  | cons x xs =>
    simp only [mostRecentlyCreated, Option.some.injEq] at h
    rcases foldl_laterCreated_mem xs x with h2 | h2
    · rw [h2] at h; rw [← h]; exact List.mem_cons_self x xs
    · rw [← h]; exact List.mem_cons_of_mem _ h2

/-- Every session produced by the disk scan satisfies `now < expires_at`. -/
theorem validDiskSessions_expires (disk : List (String × MetadataFile))
    (now : Int) (s : SessionInfo) (h : s ∈ validDiskSessions disk now) :
    now < s.expires_at := by
  unfold validDiskSessions at h
  rcases List.mem_filterMap.mp h with ⟨entry, _, heq⟩
  cases hm : entry.2 with
  | missing => rw [hm] at heq; simp at heq
  | emptyDoc => rw [hm] at heq; simp at heq
  | doc info =>
    rw [hm] at heq
    by_cases hlt : now < info.expires_at
    · simp only [hlt, if_pos, Option.some.injEq] at heq
      rw [← heq]; exact hlt
    · simp [hlt] at heq

/-- Whenever `get_current_session` returns a session, that session occupies
the in-memory slot of the state it also returns. -/
theorem get_current_session_sets_current (st : SMState) (now : Int)
    (s : SessionInfo) (h : (get_current_session st now).1 = some s) :
    (get_current_session st now).2.current_session = some s := by
  obtain ⟨cur, disk⟩ := st
  unfold get_current_session at h ⊢
  cases cur with
  | some t => simpa using h
  | none =>
    cases hm : mostRecentlyCreated (validDiskSessions disk now) with
    | some info => rw [hm] at h; simpa using h
    | none => rw [hm] at h; simp at h

/-- The staleness test of `get_valid_id_token`, spelled out. -/
theorem tokenNeedsRefresh_iff (s : SessionInfo) (now : Int) :
    tokenNeedsRefresh s now = true ↔
      (¬ pyTruthyStr s.id_token = true ∨ s.token_expires_at = none ∨
        ∃ e, s.token_expires_at = some e ∧ now ≥ e) := by
  unfold tokenNeedsRefresh
  cases h : s.token_expires_at with
  | none => simp
  | some e =>
    simp only [Bool.or_eq_true, Bool.not_eq_true', decide_eq_true_eq]
    constructor
    · rintro (h1 | h1)
      · left; simp [h1]
      · right; right; exact ⟨e, rfl, h1⟩
    · rintro (h1 | h1 | ⟨e2, he2, hge⟩)
      · left; simpa using h1
      · exact absurd h1 (by simp)
      · right
        have he3 := Option.some.inj he2
        rw [he3]
        exact hge

/-- Without a prior login, `get_valid_id_token` returns a falsy pair and
performs no backend call. -/
theorem get_valid_id_token_no_login (st : SMState) (now : Int)
    (oracle : RefreshOutcome) (h : noPriorLogin st now) :
    (get_valid_id_token st now oracle).user_id = none ∧
    (get_valid_id_token st now oracle).id_token = none ∧
    (get_valid_id_token st now oracle).refreshCalls = 0 := by
  unfold noPriorLogin at h
  unfold get_valid_id_token
  cases hc : (get_current_session st now).1 with
  | none => simp [hc]
  | some s =>
    rw [hc] at h
    have hgate : (!pyTruthyStr s.refresh_token || !pyTruthyStr s.user_id) = true := by
      rcases h with h | h <;> simp [h]
    simp [hc, hgate]

theorem roundDouble_zero : roundDouble 0 = 0 := by simp [roundDouble]

/-- `roundHalfEven` rounds down below the midpoint. -/
theorem roundHalfEven_eq_down (q : ℚ) (n : Int) (h1 : (n:ℚ) ≤ q)
    (h2 : q < (n:ℚ) + 1/2) : roundHalfEven q = n := by
  have hfl : ⌊q⌋ = n := by
    rw [Int.floor_eq_iff]
    refine ⟨h1, ?_⟩
    have : ((n + 1 : Int) : ℚ) = (n:ℚ) + 1 := by push_cast; ring
    linarith [this]
  unfold roundHalfEven
  rw [hfl, if_pos (show q - (n:ℚ) < 1/2 by linarith)]

/-- `roundHalfEven` rounds up above the midpoint. -/
theorem roundHalfEven_eq_up (q : ℚ) (n : Int) (h1 : (n:ℚ) + 1/2 < q)
    (h2 : q < (n:ℚ) + 1) : roundHalfEven q = n + 1 := by
  have hfl : ⌊q⌋ = n := by
    rw [Int.floor_eq_iff]
    constructor
    · linarith
    · have : ((n + 1 : Int) : ℚ) = (n:ℚ) + 1 := by push_cast; ring
      linarith [this]
  unfold roundHalfEven
  rw [hfl, if_neg (show ¬(q - (n:ℚ) < 1/2) by linarith),
    if_pos (show q - (n:ℚ) > 1/2 by linarith)]

/-- Evaluation rule for `roundDouble` at a positive rational below `2^53`:
exhibiting `k` with mantissa `q * 2^k` in `[2^52, 2^53)` and its half-even
rounding `m` gives `roundDouble q = m / 2^k`. -/
theorem roundDouble_eq_of_neg (q : ℚ) (k : ℕ) (m : Int)
    (hq : 0 < q)
    (h1 : (2:ℚ)^(52:ℕ) ≤ q * 2^k) (h2 : q * 2^k < (2:ℚ)^(53:ℕ))
    (hm : roundHalfEven (q * 2^k) = m) :
    roundDouble q = (m:ℚ) / 2^k := by
  have h2k : (0:ℚ) < 2^k := by positivity
  have habs : |q| = q := abs_of_pos hq
  have hcast : ((2:ℕ):ℚ) = (2:ℚ) := by norm_num
  have hlow : ((2:ℕ):ℚ)^((52:Int) - k) ≤ q := by
    rw [hcast, zpow_sub₀ (by norm_num : (2:ℚ) ≠ 0),
      show ((52:Int)) = ((52:ℕ):Int) from rfl, zpow_natCast, zpow_natCast,
      div_le_iff₀ (by positivity)]
    exact h1
  have hhigh : q < ((2:ℕ):ℚ)^((52:Int) - k + 1) := by
    rw [hcast, show (52:Int) - (k:Int) + 1 = ((53:ℕ):Int) - (k:Int) by omega,
      zpow_sub₀ (by norm_num : (2:ℚ) ≠ 0), zpow_natCast, zpow_natCast,
      lt_div_iff₀ (by positivity)]
    exact h2
  have hlog : Int.log 2 q = 52 - k := by
    have ha : (52 - (k:Int)) ≤ Int.log 2 q :=
      (Int.zpow_le_iff_le_log one_lt_two hq).mp hlow
    have hb : Int.log 2 q < 52 - k + 1 :=
      (Int.lt_zpow_iff_log_lt one_lt_two hq).mp hhigh
    omega
  unfold roundDouble dExp
  rw [if_neg (ne_of_gt hq), habs, hlog,
    show ((52:Int) - k - 52) = -(k:Int) by omega, zpow_neg, zpow_natCast,
    div_eq_mul_inv, inv_inv, hm, ← div_eq_mul_inv]

/-- Binary64 rounding: the literal 0.85. -/
theorem rd_085 :
    roundDouble ((17:ℚ)/20) = ((7656119366529843:ℚ)/9007199254740992) := by
  rw [roundDouble_eq_of_neg ((17:ℚ)/20) 53 7656119366529843 (by norm_num)
    (by norm_num) (by norm_num)
    ((roundHalfEven_eq_down _ 7656119366529843 (by norm_num)
      (by norm_num)).trans (by norm_num))]
  norm_num

/-- Binary64 rounding: the literal 0.3. -/
theorem rd_03 :
    roundDouble ((3:ℚ)/10) = ((5404319552844595:ℚ)/18014398509481984) := by
  rw [roundDouble_eq_of_neg ((3:ℚ)/10) 54 5404319552844595 (by norm_num)
    (by norm_num) (by norm_num)
    ((roundHalfEven_eq_down _ 5404319552844595 (by norm_num)
      (by norm_num)).trans (by norm_num))]
  norm_num

/-- Binary64 rounding: 1.0 is exact. -/
theorem rd_1 :
    roundDouble (1:ℚ) = (1:ℚ) := by
  rw [roundDouble_eq_of_neg (1:ℚ) 52 4503599627370496 (by norm_num)
    (by norm_num) (by norm_num)
    ((roundHalfEven_eq_down _ 4503599627370496 (by norm_num)
      (by norm_num)).trans (by norm_num))]
  norm_num

/-- Binary64 rounding: the literal 1.15. -/
theorem rd_115 :
    roundDouble ((23:ℚ)/20) = ((2589569785738035:ℚ)/2251799813685248) := by
  rw [roundDouble_eq_of_neg ((23:ℚ)/20) 52 5179139571476070 (by norm_num)
    (by norm_num) (by norm_num)
    ((roundHalfEven_eq_down _ 5179139571476070 (by norm_num)
      (by norm_num)).trans (by norm_num))]
  norm_num

/-- Binary64 rounding: avg = 1000000 / 5 is exact. -/
theorem rd_200000 :
    roundDouble (200000:ℚ) = (200000:ℚ) := by
  rw [roundDouble_eq_of_neg (200000:ℚ) 35 6871947673600000 (by norm_num)
    (by norm_num) (by norm_num)
    ((roundHalfEven_eq_down _ 6871947673600000 (by norm_num)
      (by norm_num)).trans (by norm_num))]
  norm_num

/-- Binary64 rounding: the double of 0.85 is exact. -/
theorem rd_d085_id :
    roundDouble ((7656119366529843:ℚ)/9007199254740992) = ((7656119366529843:ℚ)/9007199254740992) := by
  rw [roundDouble_eq_of_neg ((7656119366529843:ℚ)/9007199254740992) 53 7656119366529843 (by norm_num)
    (by norm_num) (by norm_num)
    ((roundHalfEven_eq_down _ 7656119366529843 (by norm_num)
      (by norm_num)).trans (by norm_num))]
  norm_num

/-- Binary64 rounding: the double of 0.3 is exact. -/
theorem rd_d03_id :
    roundDouble ((5404319552844595:ℚ)/18014398509481984) = ((5404319552844595:ℚ)/18014398509481984) := by
  rw [roundDouble_eq_of_neg ((5404319552844595:ℚ)/18014398509481984) 54 5404319552844595 (by norm_num)
    (by norm_num) (by norm_num)
    ((roundHalfEven_eq_down _ 5404319552844595 (by norm_num)
      (by norm_num)).trans (by norm_num))]
  norm_num

/-- Binary64 rounding: half the double of 0.3 is exact. -/
theorem rd_d03_half :
    roundDouble ((5404319552844595:ℚ)/36028797018963968) = ((5404319552844595:ℚ)/36028797018963968) := by
  rw [roundDouble_eq_of_neg ((5404319552844595:ℚ)/36028797018963968) 55 5404319552844595 (by norm_num)
    (by norm_num) (by norm_num)
    ((roundHalfEven_eq_down _ 5404319552844595 (by norm_num)
      (by norm_num)).trans (by norm_num))]
  norm_num

/-- Binary64 rounding: double(0.85) + double(0.3)/2 rounds up to exactly 1. -/
theorem rd_v1 :
    roundDouble ((36028797018963967:ℚ)/36028797018963968) = (1:ℚ) := by
  rw [roundDouble_eq_of_neg ((36028797018963967:ℚ)/36028797018963968) 53 9007199254740992 (by norm_num)
    (by norm_num) (by norm_num)
    ((roundHalfEven_eq_up _ 9007199254740991 (by norm_num)
      (by norm_num)).trans (by norm_num))]
  norm_num

/-- Binary64 rounding: twice the double of 0.3 is exact. -/
theorem rd_2d03 :
    roundDouble ((5404319552844595:ℚ)/9007199254740992) = ((5404319552844595:ℚ)/9007199254740992) := by
  rw [roundDouble_eq_of_neg ((5404319552844595:ℚ)/9007199254740992) 53 5404319552844595 (by norm_num)
    (by norm_num) (by norm_num)
    ((roundHalfEven_eq_down _ 5404319552844595 (by norm_num)
      (by norm_num)).trans (by norm_num))]
  norm_num

/-- Binary64 rounding: double(0.85) + double(0.3) rounds to double(1.15), just below 23/20. -/
theorem rd_v2 :
    roundDouble ((20716558285904281:ℚ)/18014398509481984) = ((2589569785738035:ℚ)/2251799813685248) := by
  rw [roundDouble_eq_of_neg ((20716558285904281:ℚ)/18014398509481984) 52 5179139571476070 (by norm_num)
    (by norm_num) (by norm_num)
    ((roundHalfEven_eq_down _ 5179139571476070 (by norm_num)
      (by norm_num)).trans (by norm_num))]
  norm_num

/-- Binary64 rounding: 200000 x double(0.85) rounds up to exactly 170000. -/
theorem rd_c0 :
    roundDouble ((23925373020405759375:ℚ)/140737488355328) = (170000:ℚ) := by
  rw [roundDouble_eq_of_neg ((23925373020405759375:ℚ)/140737488355328) 35 5841155522560000 (by norm_num)
    (by norm_num) (by norm_num)
    ((roundHalfEven_eq_up _ 5841155522559999 (by norm_num)
      (by norm_num)).trans (by norm_num))]
  norm_num

/-- Binary64 rounding: 200000 x double(1.15) rounds down, below 230000. -/
theorem rd_c2 :
    roundDouble ((8092405580431359375:ℚ)/35184372088832) = ((7902739824639999:ℚ)/34359738368) := by
  rw [roundDouble_eq_of_neg ((8092405580431359375:ℚ)/35184372088832) 35 7902739824639999 (by norm_num)
    (by norm_num) (by norm_num)
    ((roundHalfEven_eq_down _ 7902739824639999 (by norm_num)
      (by norm_num)).trans (by norm_num))]
  norm_num

/-- Binary64 rounding: 170000 / 1000000. -/
theorem rd_s0a :
    roundDouble ((17:ℚ)/100) = ((6124895493223875:ℚ)/36028797018963968) := by
  rw [roundDouble_eq_of_neg ((17:ℚ)/100) 55 6124895493223875 (by norm_num)
    (by norm_num) (by norm_num)
    ((roundHalfEven_eq_up _ 6124895493223874 (by norm_num)
      (by norm_num)).trans (by norm_num))]
  norm_num

/-- Binary64 rounding: double(0.17) x 100 rounds to exactly 17. -/
theorem rd_s0b :
    roundDouble ((153122387330596875:ℚ)/9007199254740992) = (17:ℚ) := by
  rw [roundDouble_eq_of_neg ((153122387330596875:ℚ)/9007199254740992) 48 4785074604081152 (by norm_num)
    (by norm_num) (by norm_num)
    ((roundHalfEven_eq_down _ 4785074604081152 (by norm_num)
      (by norm_num)).trans (by norm_num))]
  norm_num

/-- Binary64 rounding: 200000 / 1000000. -/
theorem rd_s1a :
    roundDouble ((1:ℚ)/5) = ((3602879701896397:ℚ)/18014398509481984) := by
  rw [roundDouble_eq_of_neg ((1:ℚ)/5) 55 7205759403792794 (by norm_num)
    (by norm_num) (by norm_num)
    ((roundHalfEven_eq_up _ 7205759403792793 (by norm_num)
      (by norm_num)).trans (by norm_num))]
  norm_num

/-- Binary64 rounding: double(0.2) x 100 rounds to exactly 20. -/
theorem rd_s1b :
    roundDouble ((90071992547409925:ℚ)/4503599627370496) = (20:ℚ) := by
  rw [roundDouble_eq_of_neg ((90071992547409925:ℚ)/4503599627370496) 48 5629499534213120 (by norm_num)
    (by norm_num) (by norm_num)
    ((roundHalfEven_eq_down _ 5629499534213120 (by norm_num)
      (by norm_num)).trans (by norm_num))]
  norm_num

/-- Binary64 rounding: 229999 / 1000000. -/
theorem rd_s2a :
    roundDouble ((229999:ℚ)/1000000) = ((4143293642782347:ℚ)/18014398509481984) := by
  rw [roundDouble_eq_of_neg ((229999:ℚ)/1000000) 55 8286587285564694 (by norm_num)
    (by norm_num) (by norm_num)
    ((roundHalfEven_eq_up _ 8286587285564693 (by norm_num)
      (by norm_num)).trans (by norm_num))]
  norm_num

/-- Binary64 rounding: double(0.229999) x 100, just below 23. -/
theorem rd_s2b :
    roundDouble ((103582341069558675:ℚ)/4503599627370496) = ((6473896316847417:ℚ)/281474976710656) := by
  rw [roundDouble_eq_of_neg ((103582341069558675:ℚ)/4503599627370496) 48 6473896316847417 (by norm_num)
    (by norm_num) (by norm_num)
    ((roundHalfEven_eq_down _ 6473896316847417 (by norm_num)
      (by norm_num)).trans (by norm_num))]
  norm_num

/-! ## Claim theorems -/

/-- Claim C1, counterexample: with an already-expired session in the
in-memory slot, `get_current_session` at time 10 still returns it although
its `expires_at = 5` has passed — the expiry check is not applied to the
in-memory session. -/
theorem c1_counterexample :
    (get_current_session c1State 10).1 = some c1ExpiredSession ∧
    c1ExpiredSession.expires_at ≤ 10 := by
  exact ⟨rfl, by decide⟩

/-- Claim C1 (amended): the `now < expires_at` check guards only the
disk-scan path — when the in-memory slot is empty, any session
`get_current_session` returns satisfies `now < expires_at`; the in-memory
fast path returns the cached session unconditionally (see the
counterexample). -/
theorem c1_disk_scan_only_valid (st : SMState) (now : Int) (s : SessionInfo)
    (hmem : st.current_session = none)
    (hret : (get_current_session st now).1 = some s) :
    now < s.expires_at := by
  unfold get_current_session at hret
  rw [hmem] at hret
  cases hm : mostRecentlyCreated (validDiskSessions st.disk now) with
  | some info =>
    rw [hm] at hret
    simp only [Option.some.injEq] at hret
    have hmemb := mostRecentlyCreated_mem _ _ hm
    have := validDiskSessions_expires st.disk now info hmemb
    rw [← hret]
    exact this
  | none =>
    rw [hm] at hret
    simp at hret

/-- Claim C1, witness: a disk-only valid session is returned and its expiry
is indeed in the future. -/
theorem c1_disk_scan_only_valid_witness :
    (c1DiskState.current_session = none ∧
      (get_current_session c1DiskState 10).1 = some c1DiskSession) ∧
    10 < c1DiskSession.expires_at :=
  ⟨⟨rfl, rfl⟩, c1_disk_scan_only_valid c1DiskState 10 c1DiskSession rfl rfl⟩

/-- Claim C3: with no prior login (no session, or a session whose
`refresh_token`/`user_id` are falsy), each of the five backend-calling tools
returns its literal "not logged in" message and performs zero backend HTTP
calls (including token refreshes). -/
theorem c3_login_gate (st : SMState) (now : Int) (oracle : RefreshOutcome)
    (out1 out2 out3 out4 out5 : String) (h : noPriorLogin st now) :
    fetch_geospatial_data st now oracle out1 = ⟨notLoggedInMsgMojibake, 0⟩ ∧
    optimize_sales_territories st now oracle out2 = ⟨notLoggedInMsgEmoji, 0⟩ ∧
    hub_expansion_analyzer_run st now oracle out3 = ⟨notLoggedInMsgPlain, 0⟩ ∧
    generate_pharmacy_report_run st now oracle out4 = ⟨notLoggedInMsgPlain, 0⟩ ∧
    generate_territory_report_run st now oracle out5 = ⟨notLoggedInMsgMojibake, 0⟩ := by
  obtain ⟨hu, hi, hc⟩ := get_valid_id_token_no_login st now oracle h
  refine ⟨?_, ?_, ?_, ?_, ?_⟩ <;>
    simp [fetch_geospatial_data, optimize_sales_territories,
      hub_expansion_analyzer_run, generate_pharmacy_report_run,
      generate_territory_report_run, hu, hi, hc, pyTruthyStr]

/-- Claim C3, witness: a fresh state (no session anywhere) trips the gate of
all five tools with zero backend calls. -/
theorem c3_login_gate_witness :
    noPriorLogin emptyState 0 ∧
    (fetch_geospatial_data emptyState 0 RefreshOutcome.failure "a"
        = ⟨notLoggedInMsgMojibake, 0⟩ ∧
      optimize_sales_territories emptyState 0 RefreshOutcome.failure "b"
        = ⟨notLoggedInMsgEmoji, 0⟩ ∧
      hub_expansion_analyzer_run emptyState 0 RefreshOutcome.failure "c"
        = ⟨notLoggedInMsgPlain, 0⟩ ∧
      generate_pharmacy_report_run emptyState 0 RefreshOutcome.failure "d"
        = ⟨notLoggedInMsgPlain, 0⟩ ∧
      generate_territory_report_run emptyState 0 RefreshOutcome.failure "e"
        = ⟨notLoggedInMsgMojibake, 0⟩) :=
  ⟨by unfold noPriorLogin; exact trivial,
    c3_login_gate emptyState 0 RefreshOutcome.failure "a" "b" "c" "d" "e"
      (by unfold noPriorLogin; exact trivial)⟩

/-- Claim C9: when a session's metadata file is missing or reads as an empty
(falsy) document, `update_session_auth` is a no-op — the manager state
(including the in-memory session's auth fields) is unchanged and no file is
written. -/
theorem c9_update_auth_noop (st : SMState) (now : Int)
    (sid uid tok rtok : String) (expires_in : Int)
    (h : readMetadata st.disk sid = MetadataFile.missing ∨
      readMetadata st.disk sid = MetadataFile.emptyDoc) :
    update_session_auth st now sid uid tok rtok expires_in = ⟨st, false⟩ := by
  unfold update_session_auth
  rcases h with h | h <;> rw [h]

/-- Claim C9, witness: updating auth for an unknown session id leaves the
empty state untouched. -/
theorem c9_update_auth_noop_witness :
    (readMetadata emptyState.disk "nope" = MetadataFile.missing ∨
      readMetadata emptyState.disk "nope" = MetadataFile.emptyDoc) ∧
    update_session_auth emptyState 0 "nope" "u" "t" "r" 3600 = ⟨emptyState, false⟩ :=
  ⟨Or.inl rfl, c9_update_auth_noop emptyState 0 "nope" "u" "t" "r" 3600 (Or.inl rfl)⟩

/-- Claim C10: reading a handle whose file exists but whose stored JSON
document is falsy returns nothing, does not touch the last-access marker,
and is indistinguishable at the interface from reading a handle that was
never stored. -/
theorem c10_read_falsy_document (st : SMState) (fs : HandleFS) (now : Int)
    (handle : String) (s : SessionInfo) (d : JValue)
    (hcur : (get_current_session st now).1 = some s)
    (hfile : fsLookup fs s.session_id handle = some d)
    (hfalsy : d.truthy = false) :
    (read_data st fs now handle).1 = ⟨none, false⟩ ∧
    ∀ fs2 : HandleFS, fsLookup fs2 s.session_id handle = none →
      (read_data st fs now handle).1 = (read_data st fs2 now handle).1 := by
  constructor
  · simp [read_data, hcur, hfile, hfalsy]
  · intro fs2 h2
    simp [read_data, hcur, hfile, hfalsy, h2]

/-- Claim C10, witness: a stored empty object reads back as nothing without
a last-access touch, exactly like an absent handle. -/
theorem c10_read_falsy_document_witness :
    ((get_current_session c4State 1).1 = some c4Session ∧
      fsLookup c10FS c4Session.session_id "h.json" = some (JValue.obj []) ∧
      (JValue.obj []).truthy = false) ∧
    ((read_data c4State c10FS 1 "h.json").1 = ⟨none, false⟩ ∧
      ∀ fs2 : HandleFS, fsLookup fs2 c4Session.session_id "h.json" = none →
        (read_data c4State c10FS 1 "h.json").1 = (read_data c4State fs2 1 "h.json").1) :=
  ⟨⟨rfl, rfl, rfl⟩,
    c10_read_falsy_document c4State c10FS 1 "h.json" c4Session (JValue.obj [])
      rfl rfl rfl⟩

/-- Claim C2: (a) `update_session_auth(..., expires_in)` at time `T` stores
`token_expires_at = T + (expires_in - 60)`; (b) for a logged-in current
session, `get_valid_id_token` performs a backend refresh call exactly when
the id token is absent, the recorded expiry is absent, or `now` has reached
it; (c) in particular, after the update with `expires_in = 120` at `T = 0`
a call at `T + 59` makes no refresh call and a call at `T + 61` makes
one. -/
theorem c2_token_refresh_buffer (st : SMState) (T now : Int)
    (sid uid tok rtok : String) (expires_in : Int) (m s : SessionInfo)
    (oracle : RefreshOutcome)
    (hdoc : readMetadata st.disk sid = MetadataFile.doc m)
    (hcur : st.current_session = some s)
    (href : pyTruthyStr s.refresh_token = true)
    (huid : pyTruthyStr s.user_id = true) :
    (∃ m2, readMetadata
        (update_session_auth st T sid uid tok rtok expires_in).state.disk sid
        = MetadataFile.doc m2 ∧
        m2.token_expires_at = some (T + (expires_in - 60))) ∧
    ((get_valid_id_token st now oracle).refreshCalls = 1 ↔
      (¬ pyTruthyStr s.id_token = true ∨ s.token_expires_at = none ∨
        ∃ e, s.token_expires_at = some e ∧ now ≥ e)) ∧
    (get_valid_id_token c2After 59 RefreshOutcome.failure).refreshCalls = 0 ∧
    (get_valid_id_token c2After 61 RefreshOutcome.failure).refreshCalls = 1 := by
  have hr : get_current_session st now = (some s, st) := by
    unfold get_current_session
    rw [hcur]
  refine ⟨?_, ?_, by decide, by decide⟩
  · simp only [update_session_auth, hdoc]
    exact ⟨_, readMetadata_writeMetadata_self st.disk sid _, rfl⟩
  · by_cases ht : tokenNeedsRefresh s now
    · have hcalls : (get_valid_id_token st now oracle).refreshCalls = 1 := by
        cases oracle <;> simp [get_valid_id_token, hr, href, huid, ht]
      rw [hcalls]
      exact iff_of_true rfl ((tokenNeedsRefresh_iff s now).mp ht)
    · have hcalls : (get_valid_id_token st now oracle).refreshCalls = 0 := by
        simp [get_valid_id_token, hr, href, huid, ht]
      rw [hcalls]
      exact iff_of_false (by simp)
        (fun hrhs => ht ((tokenNeedsRefresh_iff s now).mpr hrhs))

/-- Claim C2, witness: the concrete logged-in state `c2State` at `T = 0`
with `expires_in = 120`, queried at `now = 700` (past its recorded expiry
500, so the refresh condition holds). -/
theorem c2_token_refresh_buffer_witness :
    (readMetadata c2State.disk "sid00001" = MetadataFile.doc c2Session ∧
      c2State.current_session = some c2Session ∧
      pyTruthyStr c2Session.refresh_token = true ∧
      pyTruthyStr c2Session.user_id = true) ∧
    ((∃ m2, readMetadata
        (update_session_auth c2State 0 "sid00001" "u" "newtok" "r2" 120).state.disk
        "sid00001" = MetadataFile.doc m2 ∧
        m2.token_expires_at = some (0 + (120 - 60))) ∧
      ((get_valid_id_token c2State 700 RefreshOutcome.failure).refreshCalls = 1 ↔
        (¬ pyTruthyStr c2Session.id_token = true ∨
          c2Session.token_expires_at = none ∨
          ∃ e, c2Session.token_expires_at = some e ∧ (700 : Int) ≥ e)) ∧
      (get_valid_id_token c2After 59 RefreshOutcome.failure).refreshCalls = 0 ∧
      (get_valid_id_token c2After 61 RefreshOutcome.failure).refreshCalls = 1) :=
  ⟨⟨by decide, rfl, by decide, by decide⟩,
    c2_token_refresh_buffer c2State 0 700 "sid00001" "u" "newtok" "r2" 120
      c2Session c2Session RefreshOutcome.failure (by decide) rfl (by decide)
      (by decide)⟩

/-- `store_data` always leaves the session it used in the in-memory slot,
and writes `to_serializable data` under the handle it returns. -/
theorem store_data_spec (st : SMState) (fs : HandleFS) (now : Int)
    (newId ts dt loc : String) (data : JValue) :
    ∃ sess : SessionInfo,
      (store_data st fs now newId ts dt loc data).2.current_session = some sess ∧
      (store_data st fs now newId ts dt loc data).1.handle =
        dt ++ "_" ++ loc ++ "_" ++ ts ++ "_" ++ sess.session_id ++ ".json" ∧
      (store_data st fs now newId ts dt loc data).1.fs =
        fsWrite fs sess.session_id
          (dt ++ "_" ++ loc ++ "_" ++ ts ++ "_" ++ sess.session_id ++ ".json")
          (to_serializable data) := by
  simp only [store_data]
  cases hg : (get_current_session st now).1 with
  | some s =>
    exact ⟨s, get_current_session_sets_current st now s hg, rfl, rfl⟩
  | none =>
    exact ⟨{ session_id := newId, created_at := now
             expires_at := now + session_ttl_hours * 3600 }, rfl, rfl, rfl⟩

/-- Claim C4, counterexample: storing the JSON-serializable payload `{}`
and reading the returned handle back in the same session yields nothing,
not a value deep-equal to the payload (the stored document is falsy). -/
theorem c4_counterexample :
    (read_data c4FalsyRun.2 c4FalsyRun.1.fs 1 c4FalsyRun.1.handle).1.data = none ∧
    (none : Option JValue) ≠ some (JValue.obj []) := by
  constructor
  · have hts : to_serializable (JValue.obj []) = JValue.obj [] :=
      to_serializable_eq _
    simp [c4FalsyRun, store_data, get_current_session, c4State, read_data, hts,
      fsWrite, fsLookup, List.lookup, JValue.truthy]
  · simp

/-- Claim C4 (amended): for every payload whose JSON document is truthy,
`store_data` followed by `read_data` of the returned handle in the same
session returns a value deep-equal to the payload; reading a handle whose
file does not exist, or reading with no current session, returns
nothing.  (Falsy payloads such as `{}` read back as nothing — see the
counterexample.) -/
theorem c4_store_read_round_trip (st : SMState) (fs : HandleFS)
    (now now2 : Int) (newId ts dt loc : String) (payload : JValue)
    (htruthy : payload.truthy = true) :
    (read_data (store_data st fs now newId ts dt loc payload).2
        (store_data st fs now newId ts dt loc payload).1.fs now2
        (store_data st fs now newId ts dt loc payload).1.handle).1.data
      = some payload ∧
    (∀ st2 fs2 now3 h2 s2, (get_current_session st2 now3).1 = some s2 →
      fsLookup fs2 s2.session_id h2 = none →
      (read_data st2 fs2 now3 h2).1.data = none) ∧
    (∀ st2 fs2 now3 h2, (get_current_session st2 now3).1 = none →
      (read_data st2 fs2 now3 h2).1.data = none) := by
  refine ⟨?_, ?_, ?_⟩
  · obtain ⟨sess, hcu, hh, hf⟩ := store_data_spec st fs now newId ts dt loc payload
    have hg2 : (get_current_session
        (store_data st fs now newId ts dt loc payload).2 now2).1 = some sess := by
      unfold get_current_session
      rw [hcu]
    have hl : fsLookup (store_data st fs now newId ts dt loc payload).1.fs
        sess.session_id (store_data st fs now newId ts dt loc payload).1.handle
        = some (to_serializable payload) := by
      rw [hf, hh]
      exact fsLookup_fsWrite_self fs sess.session_id _ _
    rw [to_serializable_eq] at hl
    simp [read_data, hg2, hl, htruthy]
  · intro st2 fs2 now3 h2 s2 hs hnone
    simp [read_data, hs, hnone]
  · intro st2 fs2 now3 h2 hs
    simp [read_data, hs]

/-- Claim C4, witness: the truthy payload `{"k": [1]}` round-trips through
`store_data`/`read_data` under the live session `c4State`. -/
theorem c4_store_read_round_trip_witness :
    (JValue.obj [("k", JValue.arr [JValue.num 1])]).truthy = true ∧
    (read_data
        (store_data c4State [] 1 "ffff0009" "20250101_000000" "x" "y"
          (JValue.obj [("k", JValue.arr [JValue.num 1])])).2
        (store_data c4State [] 1 "ffff0009" "20250101_000000" "x" "y"
          (JValue.obj [("k", JValue.arr [JValue.num 1])])).1.fs 2
        (store_data c4State [] 1 "ffff0009" "20250101_000000" "x" "y"
          (JValue.obj [("k", JValue.arr [JValue.num 1])])).1.handle).1.data
      = some (JValue.obj [("k", JValue.arr [JValue.num 1])]) :=
  ⟨rfl,
    ((c4_store_read_round_trip c4State [] 1 2 "ffff0009" "20250101_000000" "x" "y"
      (JValue.obj [("k", JValue.arr [JValue.num 1])]) rfl).1)⟩

/-- Claim C5: `generate_territory_table` itself renders, for a non-empty
`territory_analytics`, one row per territory with the claimed market-share
and customer-to-facility formulas — but `generate_common_sections` invokes
it with `territory_analytics=[]` in its real-data branch, so the rendered
report's territory table is empty for every non-empty analytics list: the
code contradicts the claim at the concrete record `c5Territory`. -/
theorem c5_territory_table_empty_in_report :
    generate_common_sections_results_table [c5Territory] 0 1 = [] ∧
    generate_territory_table [c5Territory] 100 =
      [{ territory_id := 0, population := 1000, effective_pop := 800
         facilities := 2, customers := 100, market_share := 100
         efficiency := 50 }] ∧
    generate_territory_table
      [c5Territory,
       { territory_id := 1, total_population := 500, effective_population := 300
         facility_count := 0, potential_customers := 100 }] 200 =
      [{ territory_id := 0, population := 1000, effective_pop := 800
         facilities := 2, customers := 100, market_share := 50
         efficiency := 50 },
       { territory_id := 1, population := 500, effective_pop := 300
         facilities := 0, customers := 100, market_share := 50
         efficiency := 0 }] := by
  refine ⟨rfl, ?_, ?_⟩ <;>
    norm_num [generate_territory_table, safe_divide, c5Territory]

/-- Claim C6, counterexample: for `total_customers = 1,000,000` and
`clusters_created = 5`, the synthetic customer values are
[170000, 200000, 229999, 170000, 200000] — not `avg * m_i` (which would put
230000 in the third row) — and the per-row market shares sum to
27303044593435961/2^48 ≈ 96.99999999999999, more than 3 percentage points
below 100, so not 100% within rounding. -/
theorem c6_counterexample :
    (generate_synthetic_territory_table 1000000 5).2 ≠
      [170000, 200000, 230000, 170000, 200000] ∧
    ((generate_synthetic_territory_table 1000000 5).1.map
      TerritoryRow.market_share).sum
      = ((27303044593435961:ℚ)/281474976710656) ∧
    (3:ℚ) < 100 - ((27303044593435961:ℚ)/281474976710656) := by
  have hdata : (generate_synthetic_territory_table 1000000 5).2
      = [170000, 200000, 229999, 170000, 200000] := by
    norm_num [generate_synthetic_territory_table, fadd, fmul, fdiv,
      safe_divide_double, pyInt, roundDouble_zero, rd_085, rd_03, rd_200000,
      rd_d085_id, rd_d03_id, rd_d03_half, rd_v1, rd_2d03, rd_v2, rd_c0,
      rd_c2, List.range_succ]
  have hshare : ((generate_synthetic_territory_table 1000000 5).1.map
      TerritoryRow.market_share)
      = [17, 20, ((6473896316847417:ℚ)/281474976710656), 17, 20] := by
    norm_num [generate_synthetic_territory_table, fadd, fmul, fdiv,
      safe_divide_double, pyInt, roundDouble_zero, rd_085, rd_03, rd_200000,
      rd_d085_id, rd_d03_id, rd_d03_half, rd_v1, rd_2d03, rd_v2, rd_c0,
      rd_c2, rd_s0a, rd_s0b, rd_s1a, rd_s1b, rd_s2a, rd_s2b, List.range_succ]
  refine ⟨?_, ?_, by norm_num⟩
  · rw [hdata]
    decide
  · rw [hshare]
    norm_num [List.sum_cons, List.sum_nil]

/-- Claim C6 (amended): the synthetic table for `total_customers=1,000,000`
and `clusters_created=5` produces exactly 5 rows whose potential-customer
values are [170000, 200000, 229999, 170000, 200000] — equal to
`int(avg * m̃_i)` where `avg = total_customers / 5` and `m̃_i` cycles the
binary64 values of the multipliers 0.85, 1.00, 1.15 (index mod 3), the
third truncating to one below `avg × 1.15 = 230000` — and whose per-row
market shares [17, 20, ≈22.9999, 17, 20] sum to
27303044593435961/2^48 ≈ 96.99999999999999: strictly between 96 and 97,
not 100%. -/
theorem c6_synthetic_table :
    (generate_synthetic_territory_table 1000000 5).1.length = 5 ∧
    (generate_synthetic_territory_table 1000000 5).2
      = [170000, 200000, 229999, 170000, 200000] ∧
    (generate_synthetic_territory_table 1000000 5).2
      = ([(85 : ℚ)/100, 1, 115/100, 85/100, 1].map
          (fun mult => pyInt (fmul (fdiv 1000000 5) (roundDouble mult)))) ∧
    ((generate_synthetic_territory_table 1000000 5).1.map
      TerritoryRow.market_share)
      = [17, 20, ((6473896316847417:ℚ)/281474976710656), 17, 20] ∧
    ((generate_synthetic_territory_table 1000000 5).1.map
      TerritoryRow.market_share).sum
      = ((27303044593435961:ℚ)/281474976710656) ∧
    (96:ℚ) < ((27303044593435961:ℚ)/281474976710656) ∧
    ((27303044593435961:ℚ)/281474976710656) < 97 := by
  have hdata : (generate_synthetic_territory_table 1000000 5).2
      = [170000, 200000, 229999, 170000, 200000] := by
    norm_num [generate_synthetic_territory_table, fadd, fmul, fdiv,
      safe_divide_double, pyInt, roundDouble_zero, rd_085, rd_03, rd_200000,
      rd_d085_id, rd_d03_id, rd_d03_half, rd_v1, rd_2d03, rd_v2, rd_c0,
      rd_c2, List.range_succ]
  have hshare : ((generate_synthetic_territory_table 1000000 5).1.map
      TerritoryRow.market_share)
      = [17, 20, ((6473896316847417:ℚ)/281474976710656), 17, 20] := by
    norm_num [generate_synthetic_territory_table, fadd, fmul, fdiv,
      safe_divide_double, pyInt, roundDouble_zero, rd_085, rd_03, rd_200000,
      rd_d085_id, rd_d03_id, rd_d03_half, rd_v1, rd_2d03, rd_v2, rd_c0,
      rd_c2, rd_s0a, rd_s0b, rd_s1a, rd_s1b, rd_s2a, rd_s2b, List.range_succ]
  refine ⟨?_, hdata, ?_, hshare, ?_, by norm_num, by norm_num⟩
  · norm_num [generate_synthetic_territory_table, List.range_succ]
  · rw [hdata]
    norm_num [fmul, fdiv, pyInt, rd_085, rd_1, rd_115, rd_200000,
      rd_d085_id, rd_c0, rd_c2]
  · rw [hshare]
    norm_num [List.sum_cons, List.sum_nil]

/-- Claim C7: for all five 0–100 input weights, the `evaluation_metrics`
object sent to the backend has `traffic`, `demographics` and `competition`
equal to the corresponding input divided by 100, `complementary` equal to
`(healthcare_weight + complementary_weight) / 200`, and the constant
`cross_shopping = 0.1`. -/
theorem c7_pharmacy_evaluation_metrics (uid city country : String)
    (traffic_weight demographics_weight competition_weight healthcare_weight
      complementary_weight : ℚ) :
    (pharmacy_request_body uid city country traffic_weight demographics_weight
        competition_weight healthcare_weight complementary_weight).evaluation_metrics
      = { traffic := traffic_weight / 100
          demographics := demographics_weight / 100
          competition := competition_weight / 100
          complementary := (healthcare_weight + complementary_weight) / 200
          cross_shopping := (1 : ℚ) / 10 } := rfl

/-- Claim C8: whenever the hub-expansion backend call fails — any non-200
HTTP status or a transport exception — `hub_expansion_analyzer` returns the
structured JSON result with `metadata.error = true` and `report_file = ""`
instead of raising. -/
theorem c8_hub_error_envelope (status : Nat) (body : JValue)
    (text msg errS sucS saved : String) (hstatus : status ≠ 200) :
    ((hub_expansion_analyzer_body
        (call_hub_expansion_internal (HubApiOutcome.completed status body text))
        errS sucS saved).metadata_error = true ∧
      (hub_expansion_analyzer_body
        (call_hub_expansion_internal (HubApiOutcome.completed status body text))
        errS sucS saved).report_file = "") ∧
    ((hub_expansion_analyzer_body
        (call_hub_expansion_internal (HubApiOutcome.exn msg))
        errS sucS saved).metadata_error = true ∧
      (hub_expansion_analyzer_body
        (call_hub_expansion_internal (HubApiOutcome.exn msg))
        errS sucS saved).report_file = "") := by
  refine ⟨⟨?_, ?_⟩, ?_, ?_⟩ <;>
    simp [hub_expansion_analyzer_body, call_hub_expansion_internal, jHasKey,
      hstatus]

/-- Claim C8, witness: a simulated 500 response (and an exception) both
yield the error envelope. -/
theorem c8_hub_error_envelope_witness :
    (500 ≠ 200) ∧
    (((hub_expansion_analyzer_body
        (call_hub_expansion_internal
          (HubApiOutcome.completed 500 JValue.null "Internal Server Error"))
        "e" "s" "r.md").metadata_error = true ∧
      (hub_expansion_analyzer_body
        (call_hub_expansion_internal
          (HubApiOutcome.completed 500 JValue.null "Internal Server Error"))
        "e" "s" "r.md").report_file = "") ∧
    ((hub_expansion_analyzer_body
        (call_hub_expansion_internal (HubApiOutcome.exn "boom"))
        "e" "s" "r.md").metadata_error = true ∧
      (hub_expansion_analyzer_body
        (call_hub_expansion_internal (HubApiOutcome.exn "boom"))
        "e" "s" "r.md").report_file = "")) :=
  ⟨by decide,
    c8_hub_error_envelope 500 JValue.null "Internal Server Error" "boom"
      "e" "s" "r.md" (by decide)⟩

end Slocator
